import Mathlib

/-!
Verification of the document-to-retrievable-knowledge pipeline of the
AILawer repository: semantic chunking, namespace-scoped ingestion with
batched writes, registry ownership checks, and the answering path.

Text is modelled as `List Char`; the Python string operations used by the
source (`str.strip`, `str.split('\n\n')`, `re.split('[.!?]+', s)`, slicing)
are given executable definitions below.  Stateful code (the JSON registry)
is modelled by explicit state passing over association lists; fallible
collaborator calls (document loaders, vector-index batch writes, the
retrieval chain) are modelled as `Except`-returning oracle parameters.
-/

deriving instance DecidableEq for Except

namespace AILawer

/-- Python `str.strip()` whitespace predicate (ASCII whitespace). -/
def isPySpace (c : Char) : Bool :=
  c == ' ' || c == '\t' || c == '\n' || c == '\r' || c.toNat == 11 || c.toNat == 12

/-- Python `s.strip()`: drop whitespace from both ends. -/
def pyStrip (s : List Char) : List Char :=
  ((s.dropWhile isPySpace).reverse.dropWhile isPySpace).reverse

/-- Python `text.split('\n\n')`: split on each non-overlapping occurrence of
two consecutive newline characters, keeping empty pieces. -/
def splitNN : List Char → List (List Char)
  | [] => [[]]
  | '\n' :: '\n' :: rest => [] :: splitNN rest
  | c :: rest =>
    match splitNN rest with
    | [] => [[c]]
    | p :: ps => (c :: p) :: ps

/-- Sentence terminator characters of the chunker's `re.split(r'[.!?]+', s)`. -/
def isSentTerm (c : Char) : Bool :=
  c == '.' || c == '!' || c == '?'

/-- Worker for `splitSentTerm`: `inTerm` records whether the previous
character belonged to a terminator run, `acc` holds the current piece in
reverse. -/
def splitTermGo : List Char → Bool → List Char → List (List Char)
  | [], _, acc => [acc.reverse]
  | c :: rest, inTerm, acc =>
    if isSentTerm c then
      if inTerm then splitTermGo rest true acc
      else acc.reverse :: splitTermGo rest true []
    else splitTermGo rest false (c :: acc)

/-- Python `re.split(r'[.!?]+', s)`: split on maximal runs of `.`, `!`, `?`,
keeping empty pieces at the ends. -/
def splitSentTerm (s : List Char) : List (List Char) :=
  splitTermGo s false []

/-- langchain `Document`: a page or a chunk, `page_content` plus metadata
(carried verbatim, so modelled as an opaque token). -/
structure PyDocument where
  page_content : List Char
  metadata : String
deriving DecidableEq

/-- The paragraph-accumulation loop of `semantic_chunk_documents`
(src/backend/app/services/rag.py lines 98-125, identical in
src/Final/main.py lines 81-108), for one page: fold the stripped
paragraphs into a running buffer, emitting the buffer when appending the
next paragraph would exceed 2000 characters and reseeding the new buffer
with the trailing sentence fragment of the emitted one. -/
def chunkLoop (meta : String) : List (List Char) → List Char → List PyDocument
  | [], current_chunk =>
    if pyStrip current_chunk ≠ [] then [⟨pyStrip current_chunk, meta⟩] else []
  | p :: ps, current_chunk =>
    let para := pyStrip p
    if para = [] then chunkLoop meta ps current_chunk
    else if 2000 < current_chunk.length + para.length ∧ current_chunk ≠ [] then
      let sentences := splitSentTerm current_chunk
      let overlap := if 1 < sentences.length then pyStrip (sentences.getLastD []) else []
      ⟨pyStrip current_chunk, meta⟩ ::
        chunkLoop meta ps (if overlap ≠ [] then overlap ++ ' ' :: para else para)
    else
      chunkLoop meta ps (if current_chunk ≠ [] then current_chunk ++ ' ' :: para else para)

/-- `semantic_chunk_documents` (src/backend/app/services/rag.py lines
88-131): chunk every page independently, concatenate in input order, then
discard chunks of at most 100 characters. -/
def semantic_chunk_documents (docs : List PyDocument) : List PyDocument :=
  ((docs.map (fun doc => chunkLoop doc.metadata (splitNN doc.page_content) [])).flatten).filter
    (fun chunk => 100 < chunk.page_content.length)

/-! ## Claim-side definitions for the overlap seed

These two definitions follow the words of the specification sentence on the
overlap seed, to be compared with the inlined computation of `chunkLoop`. -/

/-- Overlap seed as the spec words it: split the just-emitted buffer on
sentence terminators; if more than one piece resulted, take the trailing
fragment trimmed, else the empty string. -/
def overlapSeed (buffer : List Char) : List Char :=
  let sentences := splitSentTerm buffer
  if 1 < sentences.length then pyStrip (sentences.getLastD []) else []

/-- New-buffer rule as the spec words it: `overlap + " " + paragraph` when
the overlap is non-empty, else just the paragraph. -/
def startBuffer (overlap para : List Char) : List Char :=
  if overlap ≠ [] then overlap ++ ' ' :: para else para

/-! ## Truncated source snippets -/

/-- Python `s[:limit] + ("..." if len(s) > limit else "")`, used with
`limit = 300` in the backend service and `limit = 200` in `Final/main.py`. -/
def truncateSnippet (limit : Nat) (s : List Char) : List Char :=
  s.take limit ++ (if limit < s.length then ['.', '.', '.'] else [])

/-! ## The JSON registry (document-set collection of json_db.py)

A Python dict keyed by strings is modelled as an association list with
unique keys maintained by `dictSet` (assignment replaces the entry holding
the key in place, or appends a fresh entry). -/

/-- Python `d.get(key)`. -/
def dictGet {α : Type} : List (String × α) → String → Option α
  | [], _ => none
  | (k, v) :: rest, key => if k = key then some v else dictGet rest key

/-- Python `d[key] = v`: replace the entry holding this key in place, or
append a fresh entry at the end (dict insertion-order semantics). -/
def dictSet {α : Type} : List (String × α) → String → α → List (String × α)
  | [], key, v => [(key, v)]
  | (k1, v1) :: rest, key, v =>
    if k1 = key then (key, v) :: rest else (k1, v1) :: dictSet rest key v

/-- Python `del d[key]` (total: removes the entry when present). -/
def dictDelete {α : Type} (m : List (String × α)) (key : String) : List (String × α) :=
  m.filter (fun e => e.1 ≠ key)

/-- Namespace Registry record stored by `process_and_store_documents`
(src/backend/app/services/rag.py lines 201-208). -/
structure DocumentSetRecord where
  id : String
  user_id : String
  file_paths : List String
  chunk_count : Nat
  created_at : Nat
  status : String
deriving DecidableEq

/-- Registry state: the `document_sets.json` mapping. -/
abbrev Registry : Type := List (String × DocumentSetRecord)

/-- `JSONDatabase.store_document_set` (json_db.py lines 236-242): store the
record under its own `id` key. -/
def store_document_set (sets : Registry) (ds : DocumentSetRecord) : Registry :=
  dictSet sets ds.id ds

/-- `JSONDatabase.get_document_set` (json_db.py lines 244-247). -/
def get_document_set (sets : Registry) (id : String) : Option DocumentSetRecord :=
  dictGet sets id

/-- `JSONDatabase.get_user_document_sets` (json_db.py lines 249-252):
all stored values whose `user_id` matches. -/
def get_user_document_sets (sets : Registry) (uid : String) : List DocumentSetRecord :=
  (sets.map Prod.snd).filter (fun ds => ds.user_id = uid)

/-- `JSONDatabase.delete_document_set` (json_db.py lines 254-261). -/
def db_delete_document_set (sets : Registry) (id : String) : Registry :=
  dictDelete sets id

/-! ## Subscription tiers (subscription.py) -/

/-- `SubscriptionTier` of app/models/schemas.py. -/
inductive SubscriptionTier
  | basic
  | standard
  | premium
  | platinum
deriving DecidableEq

/-- The `features` lists of `SubscriptionService.TIER_LIMITS`
(subscription.py lines 9-34). -/
def tierFeatures : SubscriptionTier → List String
  | .basic => ["chat_advice", "case_study_limited"]
  | .standard => ["chat_advice", "case_study_unlimited"]
  | .premium => ["chat_advice", "case_study_unlimited", "expert_advice_limited"]
  | .platinum => ["chat_advice", "case_study_unlimited", "expert_advice_unlimited"]

/-- A stored user, restricted to the field the ingestion gate reads. -/
structure UserRecord where
  id : String
  subscription_tier : SubscriptionTier
deriving DecidableEq

/-- `SubscriptionService.check_feature_access` (subscription.py lines
39-48): false for unknown users, else membership of the feature in the
tier's feature list. -/
def check_feature_access (users : List (String × UserRecord)) (uid feature : String) : Bool :=
  match dictGet users uid with
  | none => false
  | some u => (tierFeatures u.subscription_tier).contains feature

/-! ## Ingestion pipeline (`RAGService.process_and_store_documents`)

Collaborators — the format-specific loaders and the Pinecone batch write —
are oracle parameters returning `Except`, an `.error` standing for a raised
exception caught by the surrounding `try`. -/

/-- Result dict of `process_and_store_documents`: either
`{"success": False, "error": e}` or
`{"success": True, "namespace": ns, "chunks_created": n, "message": m}`. -/
inductive IngestOutcome
  | failure (error : String)
  | success (namespace_id : String) (chunks_created : Nat) (message : String)
deriving DecidableEq

/-- The document-loading loop (rag.py lines 173-177): load every file in
order, extending one list; the first raised error aborts the whole loop. -/
def loadAllDocuments (load : String → Except String (List PyDocument)) :
    List String → Except String (List PyDocument)
  | [] => .ok []
  | fp :: fps =>
    match load fp with
    | .error e => .error e
    | .ok docs =>
      match loadAllDocuments load fps with
      | .error e => .error e
      | .ok rest => .ok (docs ++ rest)

/-- Slices `chunks[i:i+64]` for `i = 0, 64, 128, ...` (the batch loop of
rag.py lines 187-198 with the default `batch_size = 64`); the fuel argument
is instantiated with the list length, which bounds the iteration count. -/
def batchSlices (fuel : Nat) (chunks : List PyDocument) : List (List PyDocument) :=
  match fuel, chunks with
  | _, [] => []
  | 0, rest => [rest]
  | Nat.succ f, c :: cs => ((c :: cs).take 64) :: batchSlices f ((c :: cs).drop 64)

/-- Run the batch writes in order; the first raised error aborts the loop. -/
def runBatches (storeBatch : List PyDocument → Except String Unit) :
    List (List PyDocument) → Except String Unit
  | [] => .ok ()
  | b :: bs =>
    match storeBatch b with
    | .error e => .error e
    | .ok _ => runBatches storeBatch bs

/-- The whole batch-write loop of rag.py lines 187-198. -/
def storeAllBatches (storeBatch : List PyDocument → Except String Unit)
    (chunks : List PyDocument) : Except String Unit :=
  runBatches storeBatch (batchSlices chunks.length chunks)

/-- `RAGService.process_and_store_documents` (rag.py lines 144-224).
`featureOk` is the verdict of the subscription collaborator (see
`process_and_store_documents_service` for the composition with
`check_feature_access`); `pcOk`/`embOk` model whether the Pinecone client
and the embeddings model initialised; `randomHex` models the random
`uuid4().hex[:8]` suffix; `now` models `time.time()`.  Returns the result
dict together with the registry state after the call. -/
def process_and_store_documents
    (featureOk pcOk embOk : Bool)
    (load : String → Except String (List PyDocument))
    (storeBatch : List PyDocument → Except String Unit)
    (sets : Registry)
    (file_paths : List String) (user_id randomHex : String) (now : Nat) :
    IngestOutcome × Registry :=
  if ¬ featureOk then
    (.failure "Document upload not available for your subscription tier", sets)
  else if ¬ pcOk then
    (.failure "Pinecone not configured. Please add PINECONE_API_KEY to environment.", sets)
  else if ¬ embOk then
    (.failure "Embeddings model not available. Please check network connection.", sets)
  else
    match loadAllDocuments load file_paths with
    | .error e => (.failure ("Error processing documents: " ++ e), sets)
    | .ok all_docs =>
      let chunks := semantic_chunk_documents all_docs
      let namespace_id := "user_" ++ user_id ++ "_" ++ randomHex
      match storeAllBatches storeBatch chunks with
      | .error e => (.failure ("Error processing documents: " ++ e), sets)
      | .ok _ =>
        (.success namespace_id chunks.length "Documents successfully processed and indexed",
         store_document_set sets
           ⟨namespace_id, user_id, file_paths, chunks.length, now, "ready"⟩)

/-- The service as wired in the repository: the gate verdict is computed by
`check_feature_access(user_id, "document_upload")` over the users store
(rag.py line 153). -/
def process_and_store_documents_service
    (users : List (String × UserRecord)) (pcOk embOk : Bool)
    (load : String → Except String (List PyDocument))
    (storeBatch : List PyDocument → Except String Unit)
    (sets : Registry)
    (file_paths : List String) (user_id randomHex : String) (now : Nat) :
    IngestOutcome × Registry :=
  process_and_store_documents (check_feature_access users user_id "document_upload")
    pcOk embOk load storeBatch sets file_paths user_id randomHex now

/-! ## Query path (`RAGService.query_documents` and its route) -/

/-- Result dict of `query_documents`: either `{"success": False, "error": e}`
or `{"success": True, "answer": a, "sources": s, "namespace": ns}`; each
source entry is the 300-character-truncated content with its metadata. -/
inductive QueryOutcome
  | failure (error : String)
  | success (answer : String) (sources : List (List Char × String)) (namespace_id : String)
deriving DecidableEq

/-- `RAGService.query_documents` (rag.py lines 226-321).  `runChain` is the
retrieval chain collaborator: question embedding, vector search restricted
to the namespace with the given `k`, and the language-model call, any of
which may raise (`.error`); on success it yields the answer text and the
retrieved source documents. -/
def query_documents
    (pcOk embOk llmOk : Bool)
    (sets : Registry)
    (runChain : String → Int → Except String (String × List PyDocument))
    (query namespace_id user_id : String) (k : Int) : QueryOutcome :=
  if ¬ pcOk then .failure "Pinecone not configured"
  else if ¬ embOk then .failure "Embeddings model not available"
  else if ¬ llmOk then .failure "LLM not available"
  else
    match get_document_set sets namespace_id with
    | none => .failure "Document set not found or access denied"
    | some ds =>
      if ds.user_id ≠ user_id then .failure "Document set not found or access denied"
      else
        match runChain query k with
        | .error e => .failure ("Error querying documents: " ++ e)
        | .ok (answer, source_documents) =>
          .success answer
            (source_documents.map (fun d => (truncateSnippet 300 d.page_content, d.metadata)))
            namespace_id

/-- Result of the `/rag/query` route: an `HTTPException` or the success body. -/
inductive RouteQueryResult
  | httpError (status : Nat) (detail : String)
  | ok (answer : String) (sources : List (List Char × String)) (namespace_id query : String)
deriving DecidableEq

/-- The clamp `min(k, 10)` applied by the `/rag/query` route
(src/backend/app/routes/rag.py line 102). -/
def route_effective_k (k : Int) : Int := min k 10

/-- The `/rag/query` route handler (routes/rag.py lines 86-114): reject
empty questions, call the service with `k` clamped to 10, convert a service
failure into a 400 error. -/
def route_query_documents
    (pcOk embOk llmOk : Bool)
    (sets : Registry)
    (runChain : String → Int → Except String (String × List PyDocument))
    (query namespace_id user_id : String) (k : Int) : RouteQueryResult :=
  if pyStrip query.toList = [] then .httpError 400 "Query cannot be empty"
  else
    match query_documents pcOk embOk llmOk sets runChain query namespace_id user_id
        (route_effective_k k) with
    | .failure e => .httpError 400 e
    | .success a s ns => .ok a s ns query

/-- `RAGService.delete_document_set` (rag.py lines 327-349): ownership check,
then registry deletion; returns the result dict and the registry after. -/
def delete_document_set (sets : Registry) (namespace_id user_id : String) :
    IngestOutcome × Registry :=
  match get_document_set sets namespace_id with
  | none => (.failure "Document set not found or access denied", sets)
  | some ds =>
    if ds.user_id ≠ user_id then (.failure "Document set not found or access denied", sets)
    else (.success namespace_id 0 "Document set deleted successfully",
          db_delete_document_set sets namespace_id)

/-! ## Answering path of `Final/main.py` (`retrieve_and_answer`) -/

/-- The fixed `k` of the retriever in `Final/main.py` line 186. -/
def final_retriever_k : Int := 5

/-- Response dict of `retrieve_and_answer`: `answer` (absent on `none`),
the snippet list, and the `error` key present only in the failure shape
`{"answer": None, "sources": [], "error": e}`. -/
structure RAResponse where
  answer : Option String
  sources : List (List Char)
  error : Option String
deriving DecidableEq

/-- `retrieve_and_answer` (Final/main.py lines 179-215).  The `try` begins
only at line 208, so the construction of the vector store, retriever,
prompt and chain (lines 180-206, `PineconeVectorStore.from_existing_index`
through `RetrievalQA.from_chain_type`) runs outside it: a raise there —
modelled by the `fromExistingIndex` oracle — propagates to the caller as an
exception (the `.error` of the outer `Except`).  Only the chain invocation
(question embedding, vector search with `k = 5`, language-model call,
lines 208-215) is caught and converted to the structured
`{"answer": None, "sources": [], "error": e}` object. -/
def retrieve_and_answer
    (fromExistingIndex : String → Except String Unit)
    (invokeChain : String → Int → Except String (String × List PyDocument))
    (query namespace_id : String) : Except String RAResponse :=
  match fromExistingIndex namespace_id with
  | .error e => .error e
  | .ok _ =>
    match invokeChain query final_retriever_k with
    | .ok (result, source_documents) =>
      .ok ⟨some result, source_documents.map (fun d => truncateSnippet 200 d.page_content),
        none⟩
    | .error e => .ok ⟨none, [], some e⟩

/-! ## Helper lemmas -/

theorem head?_dropWhile_false {α : Type} {p : α → Bool} :
    ∀ (l : List α) (c : α), (l.dropWhile p).head? = some c → p c = false := by
  intro l
  induction l with
  | nil => intro c h; simp [List.dropWhile] at h
  | cons x xs ih =>
    intro c h
    rw [List.dropWhile_cons] at h
    by_cases hx : p x
    · rw [if_pos hx] at h; exact ih c h
    · rw [if_neg hx] at h
      simp only [List.head?_cons, Option.some.injEq] at h
      rw [← h]
      exact Bool.not_eq_true _ ▸ (by simpa using hx)

theorem pyStrip_eq_rdrop (s : List Char) :
    pyStrip s = List.rdropWhile isPySpace (s.dropWhile isPySpace) := rfl

/-- `pyStrip` is idempotent: stripping a stripped string changes nothing. -/
theorem pyStrip_idem (s : List Char) : pyStrip (pyStrip s) = pyStrip s := by
  rw [pyStrip_eq_rdrop, pyStrip_eq_rdrop]
  have h1 : (List.rdropWhile isPySpace (s.dropWhile isPySpace)).dropWhile isPySpace
      = List.rdropWhile isPySpace (s.dropWhile isPySpace) := by
    rcases hpre : List.rdropWhile isPySpace (s.dropWhile isPySpace) with _ | ⟨c, cs⟩
    · simp
    · have hp : List.rdropWhile isPySpace (s.dropWhile isPySpace) <+: s.dropWhile isPySpace :=
        List.rdropWhile_prefix _ _
      rw [hpre] at hp
      obtain ⟨t, ht⟩ := hp
      have hc : (s.dropWhile isPySpace).head? = some c := by rw [← ht]; rfl
      have hfalse : isPySpace c = false := head?_dropWhile_false _ c hc
      rw [List.dropWhile_cons, hfalse]
      simp
  rw [h1, List.rdropWhile_idempotent]

/-- Every chunk `chunkLoop` emits has already-stripped text. -/
theorem chunkLoop_text_stripped (meta : String) :
    ∀ (ps : List (List Char)) (buf : List Char) (c : PyDocument),
      c ∈ chunkLoop meta ps buf → pyStrip c.page_content = c.page_content := by
  intro ps
  induction ps with
  | nil =>
    intro buf c hc
    rw [chunkLoop] at hc
    split at hc
    · rcases List.mem_singleton.mp hc with rfl
      exact pyStrip_idem buf
    · simp at hc
  | cons p ps ih =>
    intro buf c hc
    rw [chunkLoop] at hc
    split at hc
    · exact ih _ c hc
    · split at hc
      · rcases List.mem_cons.mp hc with rfl | htail
        · exact pyStrip_idem buf
        · exact ih _ c htail
      · exact ih _ c hc

/-- C1 (corrected): every chunk produced by the semantic chunker, after the
final filter, has trimmed text length strictly greater than 100 characters.
The companion counterexample `chunk_upper_bound_counterexample` shows the
original 2000-character upper bound fails even when no paragraph exceeds
2000 characters, so the claim keeps only its lower-bound half. -/
theorem chunk_length_lower_bound (docs : List PyDocument) (c : PyDocument)
    (hc : c ∈ semantic_chunk_documents docs) :
    100 < (pyStrip c.page_content).length := by
  unfold semantic_chunk_documents at hc
  rw [List.mem_filter] at hc
  obtain ⟨hmem, hlen⟩ := hc
  rw [List.mem_flatten] at hmem
  obtain ⟨l, hl, hcl⟩ := hmem
  rw [List.mem_map] at hl
  obtain ⟨doc, _, rfl⟩ := hl
  rw [chunkLoop_text_stripped doc.metadata _ _ c hcl]
  simpa using hlen

set_option maxRecDepth 10000 in
/-- Witness for `chunk_length_lower_bound` at a concrete 150-character page. -/
theorem chunk_length_lower_bound_witness :
    100 < (pyStrip (PyDocument.mk (List.replicate 150 'a') "f.pdf").page_content).length :=
  chunk_length_lower_bound [⟨List.replicate 150 'a', "f.pdf"⟩]
    ⟨List.replicate 150 'a', "f.pdf"⟩ (by decide)

/-- Page holding two 1000-character paragraphs separated by one blank line. -/
def twoParagraphPage : List Char :=
  List.replicate 1000 'a' ++ '\n' :: '\n' :: List.replicate 1000 'a'

set_option maxRecDepth 10000 in
/-- Counterexample to C1's upper bound: a page with two 1000-character
paragraphs (each at most 2000 characters) produces a single chunk of 2001
characters, because the space joining the paragraphs is not counted against
the 2000-character limit. -/
theorem chunk_upper_bound_counterexample :
    (semantic_chunk_documents [⟨twoParagraphPage, "f.pdf"⟩]).map
        (fun c => c.page_content.length) = [2001] ∧
    ∀ p ∈ splitNN twoParagraphPage, (pyStrip p).length ≤ 2000 := by
  decide

/-- C7 (confirmed): the chunker processes each page independently and in
input order: chunking a concatenation of page sequences yields the
concatenation of the chunkings, so permuting whole pages permutes the
per-page chunk groups identically with no reordering. -/
theorem chunker_append_hom (A B : List PyDocument) :
    semantic_chunk_documents (A ++ B)
      = semantic_chunk_documents A ++ semantic_chunk_documents B := by
  unfold semantic_chunk_documents
  rw [List.map_append, List.flatten_append, List.filter_append]

/-- C8 (confirmed): the `/rag/query` route clamps the requested `k` with
`min(k, 10)` (see `route_query_documents`, which passes `route_effective_k k`
to the service), and the `Final/main.py` path hard-codes `k = 5`; in both
query entry points the `k` supplied to the retrieval chain is at most 10. -/
theorem retrieval_k_clamped (k : Int) :
    route_effective_k k ≤ 10 ∧ final_retriever_k ≤ 10 := by
  refine ⟨min_le_right _ _, by norm_num [final_retriever_k]⟩

theorem splitTermGo_cons_term_true {x : Char} (hx : isSentTerm x = true)
    (rest acc : List Char) :
    splitTermGo (x :: rest) true acc = splitTermGo rest true acc := by
  rw [splitTermGo, if_pos hx]
  simp

theorem splitTermGo_cons_term_false {x : Char} (hx : isSentTerm x = true)
    (rest acc : List Char) :
    splitTermGo (x :: rest) false acc = acc.reverse :: splitTermGo rest true [] := by
  rw [splitTermGo, if_pos hx]
  simp

theorem splitTermGo_cons_nonterm {x : Char} (hx : ¬ isSentTerm x = true)
    (rest : List Char) (b : Bool) (acc : List Char) :
    splitTermGo (x :: rest) b acc = splitTermGo rest false (x :: acc) := by
  rw [splitTermGo, if_neg hx]

/-- When the input ends with a sentence terminator, `splitTermGo` produces a
final empty piece, preceded by at least one piece when starting outside a
terminator run. -/
theorem splitTermGo_ends_term :
    ∀ (s : List Char) (b : Bool) (acc : List Char) (c : Char),
      (b = true → acc = []) → s.getLast? = some c → isSentTerm c = true →
      ∃ ps, splitTermGo s b acc = ps ++ [[]] ∧ (b = false → ps ≠ []) := by
  intro s
  induction s with
  | nil => intro b acc c _ h _; simp at h
  | cons x rest ih =>
    intro b acc c hb hlast hterm
    cases rest with
    | nil =>
      have hx : x = c := by simpa using hlast
      subst hx
      cases b with
      | true =>
        have hacc := hb rfl
        subst hacc
        exact ⟨[], by simp [splitTermGo, hterm], by simp⟩
      | false =>
        exact ⟨[acc.reverse], by simp [splitTermGo, hterm], by simp⟩
    | cons y rest2 =>
      have hlast2 : (y :: rest2).getLast? = some c := by
        rwa [List.getLast?_cons_cons] at hlast
      by_cases hx : isSentTerm x = true
      · cases b with
        | true =>
          have hacc := hb rfl
          subst hacc
          obtain ⟨ps, hps, _⟩ := ih true [] c (fun _ => rfl) hlast2 hterm
          exact ⟨ps, by rw [splitTermGo_cons_term_true hx, hps], by simp⟩
        | false =>
          obtain ⟨ps, hps, _⟩ := ih true [] c (fun _ => rfl) hlast2 hterm
          exact ⟨acc.reverse :: ps,
            by rw [splitTermGo_cons_term_false hx, hps]; rfl, by simp⟩
      · obtain ⟨ps, hps, hne⟩ := ih false (x :: acc) c (by simp) hlast2 hterm
        exact ⟨ps, by rw [splitTermGo_cons_nonterm hx, hps], fun _ => hne rfl⟩

/-- When the buffer ends exactly at a sentence terminator, the overlap seed
is empty: the split has at least two pieces and the trailing one is empty. -/
theorem overlapSeed_of_ends_term (buf : List Char) (c : Char)
    (hlast : buf.getLast? = some c) (hterm : isSentTerm c = true) :
    overlapSeed buf = [] := by
  obtain ⟨ps, hps, hne⟩ :=
    splitTermGo_ends_term buf false [] c (by simp) hlast hterm
  have hne' : ps ≠ [] := hne rfl
  unfold overlapSeed splitSentTerm
  rw [hps]
  have hlen : 1 < (ps ++ [[]]).length := by
    rcases ps with _ | ⟨q, qs⟩
    · exact absurd rfl hne'
    · simp
  rw [if_pos hlen]
  have hlastD : (ps ++ ([[]] : List (List Char))).getLastD [] = [] := by
    rw [List.getLastD_eq_getLast?]
    simp
  rw [hlastD]
  rfl

/-- C4 (confirmed): whenever the chunker emits a buffer mid-page because
appending the next (stripped, non-empty) paragraph would exceed 2000
characters, the next buffer starts with the overlap seed exactly as the
spec words it (`overlapSeed`/`startBuffer`), and the overlap seed is empty
whenever the emitted buffer ends exactly at a sentence terminator. -/
theorem overlap_seed_correct (meta : String) (p : List Char) (ps : List (List Char))
    (buf : List Char) (hpara : pyStrip p ≠ []) (hbuf : buf ≠ [])
    (hover : 2000 < buf.length + (pyStrip p).length) :
    chunkLoop meta (p :: ps) buf
      = ⟨pyStrip buf, meta⟩ ::
          chunkLoop meta ps (startBuffer (overlapSeed buf) (pyStrip p)) ∧
    (∀ c : Char, buf.getLast? = some c → isSentTerm c = true → overlapSeed buf = []) := by
  constructor
  · rw [chunkLoop]
    rw [if_neg hpara, if_pos ⟨hover, hbuf⟩]
    rfl
  · exact fun c hc ht => overlapSeed_of_ends_term buf c hc ht

theorem dropWhile_replicate_of_false {α : Type} {p : α → Bool} {a : α}
    (h : p a = false) (n : Nat) :
    (List.replicate n a).dropWhile p = List.replicate n a := by
  cases n with
  | zero => rfl
  | succ m =>
    rw [List.replicate_succ, List.dropWhile_cons, h]
    simp [List.replicate_succ]

theorem pyStrip_replicate {a : Char} (h : isPySpace a = false) (n : Nat) :
    pyStrip (List.replicate n a) = List.replicate n a := by
  unfold pyStrip
  rw [dropWhile_replicate_of_false h, List.reverse_replicate,
    dropWhile_replicate_of_false h, List.reverse_replicate]

/-- Emitted buffer of the C4 witness: two short sentences, the second left
unterminated, so the overlap seed is that trailing fragment. -/
def c4Buffer : List Char := "First clause. trailing fragment".toList

/-- Oversized paragraph of the C4 witness. -/
def c4Para : List Char := List.replicate 1990 'b'

/-- Emitted buffer ending exactly at a sentence terminator, for the
empty-overlap half of the C4 witness. -/
def c4TermBuffer : List Char := "First clause. Second clause.".toList

/-- Witness for `overlap_seed_correct`: the 31-character buffer plus the
1990-character paragraph overflows, the buffer is emitted and the new buffer
is reseeded through `overlapSeed`/`startBuffer`; and a buffer ending at a
terminator has an empty overlap seed. -/
theorem overlap_seed_correct_witness :
    chunkLoop "f.pdf" [c4Para] c4Buffer
      = ⟨pyStrip c4Buffer, "f.pdf"⟩ ::
          chunkLoop "f.pdf" [] (startBuffer (overlapSeed c4Buffer) (pyStrip c4Para)) ∧
    overlapSeed c4TermBuffer = [] :=
  ⟨(overlap_seed_correct "f.pdf" c4Para [] c4Buffer
      (by
        rw [c4Para, pyStrip_replicate (by decide)]
        refine List.length_pos.mp ?_
        rw [List.length_replicate]
        norm_num)
      (by decide)
      (by
        rw [c4Para, pyStrip_replicate (by decide), List.length_replicate]
        decide)).1,
   (overlap_seed_correct "f.pdf" c4Para [] c4TermBuffer
      (by
        rw [c4Para, pyStrip_replicate (by decide)]
        refine List.length_pos.mp ?_
        rw [List.length_replicate]
        norm_num)
      (by decide)
      (by
        rw [c4Para, pyStrip_replicate (by decide), List.length_replicate]
        decide)).2 '.' (by decide) (by decide)⟩

/-! ## Dictionary lemmas -/

theorem dictGet_cons {α : Type} (k1 key : String) (v1 : α) (rest : List (String × α)) :
    dictGet ((k1, v1) :: rest) key = if k1 = key then some v1 else dictGet rest key := rfl

theorem dictGet_dictSet_self {α : Type} (m : List (String × α)) (k : String) (v : α) :
    dictGet (dictSet m k v) k = some v := by
  induction m with
  | nil => simp [dictSet, dictGet]
  | cons e rest ih =>
    rcases e with ⟨k1, v1⟩
    rw [dictSet]
    by_cases he : k1 = k
    · rw [if_pos he, dictGet_cons, if_pos rfl]
    · rw [if_neg he, dictGet_cons, if_neg he]
      exact ih

theorem dictGet_dictSet_ne {α : Type} (m : List (String × α)) (k k2 : String) (v : α)
    (h : k2 ≠ k) : dictGet (dictSet m k v) k2 = dictGet m k2 := by
  induction m with
  | nil =>
    show dictGet [(k, v)] k2 = dictGet [] k2
    rw [dictGet_cons, if_neg (fun hk => h hk.symm)]
  | cons e rest ih =>
    rcases e with ⟨k1, v1⟩
    rw [dictSet]
    by_cases he : k1 = k
    · rw [if_pos he, dictGet_cons, dictGet_cons,
        if_neg (fun hk : k = k2 => h hk.symm),
        if_neg (fun h2 : k1 = k2 => h (h2.symm.trans he))]
    · rw [if_neg he, dictGet_cons, dictGet_cons]
      by_cases h2 : k1 = k2
      · rw [if_pos h2, if_pos h2]
      · rw [if_neg h2, if_neg h2]
        exact ih

theorem dictGet_dictDelete_ne {α : Type} (m : List (String × α)) (k k2 : String)
    (h : k2 ≠ k) : dictGet (dictDelete m k) k2 = dictGet m k2 := by
  induction m with
  | nil => rfl
  | cons e rest ih =>
    rcases e with ⟨k1, v1⟩
    unfold dictDelete at ih ⊢
    rw [List.filter_cons]
    by_cases hk : k1 = k
    · rw [if_neg (by simp [hk])]
      rw [dictGet_cons, if_neg (fun h2 : k1 = k2 => h (h2.symm.trans hk))]
      exact ih
    · rw [if_pos (by simpa using hk)]
      rw [dictGet_cons, dictGet_cons]
      by_cases h2 : k1 = k2
      · rw [if_pos h2, if_pos h2]
      · rw [if_neg h2, if_neg h2]
        exact ih

/-! ## C2: ownership check of the query path -/

/-- Shared helper: the registry guard of `query_documents` fails with the
combined error, for every retrieval-chain oracle, whenever the namespace is
absent or owned by someone else. -/
theorem query_guard_failure (sets : Registry)
    (runChain : String → Int → Except String (String × List PyDocument))
    (query namespace_id user_id : String) (k : Int)
    (h : get_document_set sets namespace_id = none ∨
      ∃ ds, get_document_set sets namespace_id = some ds ∧ ds.user_id ≠ user_id) :
    query_documents true true true sets runChain query namespace_id user_id k
      = .failure "Document set not found or access denied" := by
  unfold query_documents
  have htriv : ¬ (¬ (true = true)) := by simp
  rw [if_neg htriv, if_neg htriv, if_neg htriv]
  rcases h with hnone | ⟨ds, hds, howner⟩
  · rw [hnone]
  · rw [hds]
    simp only [if_pos howner]

/-- C2 (corrected): with the backends configured, if the registry has no
record for the namespace, or has one owned by a different user, the query
fails with the single combined error "Document set not found or access
denied" — for every retrieval-chain oracle, so the failure happens before
any question embedding or vector search, and the failure result carries no
source chunks.  (The original claim's distinct `NotFound` / `AccessDenied`
errors do not exist: see `query_error_not_distinguished`.) -/
theorem query_ownership_guard (sets : Registry)
    (runChain : String → Int → Except String (String × List PyDocument))
    (query namespace_id user_id : String) (k : Int)
    (h : get_document_set sets namespace_id = none ∨
      ∃ ds, get_document_set sets namespace_id = some ds ∧ ds.user_id ≠ user_id) :
    query_documents true true true sets runChain query namespace_id user_id k
      = .failure "Document set not found or access denied" :=
  query_guard_failure sets runChain query namespace_id user_id k h

/-- Registry of the C2 scenarios: one namespace owned by user `bob`. -/
def foreignRegistry : Registry :=
  [("ns1", ⟨"ns1", "bob", ["b.pdf"], 1, 0, "ready"⟩)]

/-- Retrieval-chain oracle that would return a chunk of `bob` if it were
ever consulted. -/
def leakChain : String → Int → Except String (String × List PyDocument) :=
  fun _ _ => .ok ("answer from bob documents", [⟨"bob secret chunk text".toList, "b.pdf"⟩])

/-- Witness for `query_ownership_guard`: `alice` querying `bob`'s
namespace is refused without the chain being consulted. -/
theorem query_ownership_guard_witness :
    query_documents true true true foreignRegistry leakChain "q" "ns1" "alice" 5
      = .failure "Document set not found or access denied" :=
  query_ownership_guard foreignRegistry leakChain "q" "ns1" "alice" 5
    (Or.inr ⟨⟨"ns1", "bob", ["b.pdf"], 1, 0, "ready"⟩, by decide, by decide⟩)

/-- Counterexample to C2 as stated: the absent-namespace call and the
foreign-owner call return the *same* outcome, so the code cannot fail with
a `NotFound` error in the first case and a distinct `AccessDenied` error in
the second; both produce the one combined error message. -/
theorem query_error_not_distinguished :
    query_documents true true true [] leakChain "q" "ns1" "alice" 5
      = query_documents true true true foreignRegistry leakChain "q" "ns1" "alice" 5 ∧
    query_documents true true true [] leakChain "q" "ns1" "alice" 5
      = .failure "Document set not found or access denied" :=
  ⟨rfl, rfl⟩

/-! ## C5: structured error of the answering path -/

/-- C5 (corrected): when the vector store, retriever and chain construct
without raising, any raised failure of the chain invocation of
`retrieve_and_answer` (question embedding, vector search, language-model
call) is caught and returned as the structured `{"answer": None,
"sources": [], "error": e}` object.  The original blanket no-propagation
claim is false: a vector-index failure during the construction step, which
sits outside the `try`, propagates as an exception — see
`answer_error_propagates`. -/
theorem answer_error_shape
    (fromExistingIndex : String → Except String Unit)
    (invokeChain : String → Int → Except String (String × List PyDocument))
    (query namespace_id e : String)
    (hconstruct : fromExistingIndex namespace_id = .ok ())
    (h : invokeChain query final_retriever_k = .error e) :
    retrieve_and_answer fromExistingIndex invokeChain query namespace_id
      = .ok ⟨none, [], some e⟩ := by
  unfold retrieve_and_answer
  rw [hconstruct, h]

/-- Witness for `answer_error_shape`: construction succeeds, the chain
raises, and the caller receives the structured error object. -/
theorem answer_error_shape_witness :
    retrieve_and_answer (fun _ => .ok ()) (fun _ _ => .error "Pinecone unreachable") "q" "ns1"
      = .ok ⟨none, [], some "Pinecone unreachable"⟩ :=
  answer_error_shape (fun _ => .ok ()) (fun _ _ => .error "Pinecone unreachable") "q" "ns1"
    "Pinecone unreachable" rfl rfl

/-- Counterexample to C5 as stated: a vector-index failure raised while
constructing the vector store (`from_existing_index`, outside the `try` of
`Final/main.py`) propagates to the caller as an exception instead of the
structured `{"answer": None, "sources": [], "error": e}` object — even
though the chain oracle would have answered successfully. -/
theorem answer_error_propagates :
    retrieve_and_answer (fun _ => .error "index not found")
        (fun _ _ => .ok ("some answer", [])) "q" "ns1"
      = .error "index not found" := rfl

/-! ## C3, C6, C9, C10: the ingestion pipeline -/

/-- Shared helper: every run of the ingestion pipeline either fails leaving
the registry untouched, or succeeds and stores exactly the one fresh record
for the generated namespace. -/
theorem process_cases (featureOk pcOk embOk : Bool)
    (load : String → Except String (List PyDocument))
    (storeBatch : List PyDocument → Except String Unit)
    (sets : Registry) (fps : List String) (uid rh : String) (now : Nat) :
    (∃ e, process_and_store_documents featureOk pcOk embOk load storeBatch sets fps uid rh now
        = (.failure e, sets)) ∨
    (∃ n, process_and_store_documents featureOk pcOk embOk load storeBatch sets fps uid rh now
        = (.success ("user_" ++ uid ++ "_" ++ rh) n
             "Documents successfully processed and indexed",
           store_document_set sets
             ⟨"user_" ++ uid ++ "_" ++ rh, uid, fps, n, now, "ready"⟩)) := by
  unfold process_and_store_documents
  by_cases h1 : ¬ featureOk = true
  · rw [if_pos h1]
    exact Or.inl ⟨_, rfl⟩
  · rw [if_neg h1]
    by_cases h2 : ¬ pcOk = true
    · rw [if_pos h2]
      exact Or.inl ⟨_, rfl⟩
    · rw [if_neg h2]
      by_cases h3 : ¬ embOk = true
      · rw [if_pos h3]
        exact Or.inl ⟨_, rfl⟩
      · rw [if_neg h3]
        cases hload : loadAllDocuments load fps with
        | error e => exact Or.inl ⟨_, rfl⟩
        | ok docs =>
          cases hbatch : storeAllBatches storeBatch (semantic_chunk_documents docs) with
          | error e =>
            refine Or.inl ⟨"Error processing documents: " ++ e, ?_⟩
            dsimp only
            rw [hbatch]
          | ok u =>
            cases u
            refine Or.inr ⟨(semantic_chunk_documents docs).length, ?_⟩
            dsimp only
            rw [hbatch]

/-- C3 (confirmed): if the inputs load but some batch write to the vector
index raises, the ingestion returns an error, the registry is unchanged,
the generated namespace appears in no user's namespace list, and a
subsequent query against it fails as not found — for every retrieval-chain
oracle; moreover the registry is only ever changed by a run whose batches
all succeeded (second conjunct of the conclusion). -/
theorem ingestion_atomicity
    (load : String → Except String (List PyDocument))
    (storeBatch : List PyDocument → Except String Unit)
    (runChain : String → Int → Except String (String × List PyDocument))
    (sets : Registry) (fps : List String) (uid rh q : String) (now : Nat) (k : Int)
    (docs : List PyDocument) (e : String)
    (hload : loadAllDocuments load fps = .ok docs)
    (hbatch : storeAllBatches storeBatch (semantic_chunk_documents docs) = .error e)
    (hfresh : get_document_set sets ("user_" ++ uid ++ "_" ++ rh) = none)
    (hlist : ("user_" ++ uid ++ "_" ++ rh) ∉
      (get_user_document_sets sets uid).map (fun ds => ds.id)) :
    (process_and_store_documents true true true load storeBatch sets fps uid rh now).1
        = .failure ("Error processing documents: " ++ e) ∧
    (process_and_store_documents true true true load storeBatch sets fps uid rh now).2 = sets ∧
    ("user_" ++ uid ++ "_" ++ rh) ∉
      (get_user_document_sets
        (process_and_store_documents true true true load storeBatch sets fps uid rh now).2
        uid).map (fun ds => ds.id) ∧
    query_documents true true true
        (process_and_store_documents true true true load storeBatch sets fps uid rh now).2
        runChain q ("user_" ++ uid ++ "_" ++ rh) uid k
      = .failure "Document set not found or access denied" ∧
    (∀ (fO pO eO : Bool) (load2 : String → Except String (List PyDocument))
      (storeBatch2 : List PyDocument → Except String Unit)
      (sets2 : Registry) (fps2 : List String) (uid2 rh2 : String) (now2 : Nat),
      (process_and_store_documents fO pO eO load2 storeBatch2 sets2 fps2 uid2 rh2 now2).2
          ≠ sets2 →
      ∃ n, (process_and_store_documents fO pO eO load2 storeBatch2 sets2 fps2 uid2 rh2 now2).1
        = .success ("user_" ++ uid2 ++ "_" ++ rh2) n
            "Documents successfully processed and indexed") := by
  have hr : process_and_store_documents true true true load storeBatch sets fps uid rh now
      = (.failure ("Error processing documents: " ++ e), sets) := by
    unfold process_and_store_documents
    have htriv : ¬ (¬ (true = true)) := by simp
    rw [if_neg htriv, if_neg htriv, if_neg htriv, hload]
    dsimp only
    rw [hbatch]
  rw [hr]
  refine ⟨rfl, rfl, hlist,
    query_guard_failure sets runChain q ("user_" ++ uid ++ "_" ++ rh) uid k (Or.inl hfresh),
    ?_⟩
  intro fO pO eO load2 storeBatch2 sets2 fps2 uid2 rh2 now2 hne
  rcases process_cases fO pO eO load2 storeBatch2 sets2 fps2 uid2 rh2 now2 with
    ⟨e2, hp⟩ | ⟨n, hp⟩
  · rw [hp] at hne
    exact absurd rfl hne
  · rw [hp]
    exact ⟨n, rfl⟩

/-- Loader of the C3 witness: one 150-character page. -/
def atomLoad : String → Except String (List PyDocument) :=
  fun _ => .ok [⟨List.replicate 150 'a', "a.pdf"⟩]

/-- Batch-write oracle of the C3 witness: always raises. -/
def atomBatch : List PyDocument → Except String Unit :=
  fun _ => .error "pinecone write failed"

set_option maxRecDepth 10000 in
/-- Witness for `ingestion_atomicity`: a failing batch write leaves the
empty registry empty, and the querying of the namespace fails. -/
theorem ingestion_atomicity_witness :
    (process_and_store_documents true true true atomLoad atomBatch [] ["a.pdf"] "u" "r" 0).1
        = .failure ("Error processing documents: " ++ "pinecone write failed") ∧
    (process_and_store_documents true true true atomLoad atomBatch [] ["a.pdf"] "u" "r" 0).2
        = [] ∧
    ("user_" ++ "u" ++ "_" ++ "r") ∉
      (get_user_document_sets
        (process_and_store_documents true true true atomLoad atomBatch [] ["a.pdf"] "u" "r" 0).2
        "u").map (fun ds => ds.id) ∧
    query_documents true true true
        (process_and_store_documents true true true atomLoad atomBatch [] ["a.pdf"] "u" "r" 0).2
        leakChain "q" ("user_" ++ "u" ++ "_" ++ "r") "u" 5
      = .failure "Document set not found or access denied" := by
  have h := ingestion_atomicity atomLoad atomBatch leakChain [] ["a.pdf"] "u" "r" "q" 0 5
    [⟨List.replicate 150 'a', "a.pdf"⟩] "pinecone write failed"
    (by decide) (by decide) (by decide) (by decide)
  exact ⟨h.1, h.2.1, h.2.2.1, h.2.2.2.1⟩

/-- C6 (confirmed): an ingestion whose inputs load but yield zero chunks
succeeds, registering the fresh namespace with `chunk_count = 0`, and the
stored record is retrievable from the registry afterwards. -/
theorem empty_ingestion_succeeds
    (load : String → Except String (List PyDocument))
    (storeBatch : List PyDocument → Except String Unit)
    (sets : Registry) (fps : List String) (uid rh : String) (now : Nat)
    (docs : List PyDocument)
    (hload : loadAllDocuments load fps = .ok docs)
    (hchunks : semantic_chunk_documents docs = []) :
    process_and_store_documents true true true load storeBatch sets fps uid rh now
      = (.success ("user_" ++ uid ++ "_" ++ rh) 0
           "Documents successfully processed and indexed",
         store_document_set sets
           ⟨"user_" ++ uid ++ "_" ++ rh, uid, fps, 0, now, "ready"⟩) ∧
    get_document_set
        (process_and_store_documents true true true load storeBatch sets fps uid rh now).2
        ("user_" ++ uid ++ "_" ++ rh)
      = some ⟨"user_" ++ uid ++ "_" ++ rh, uid, fps, 0, now, "ready"⟩ := by
  have hr : process_and_store_documents true true true load storeBatch sets fps uid rh now
      = (.success ("user_" ++ uid ++ "_" ++ rh) 0
           "Documents successfully processed and indexed",
         store_document_set sets
           ⟨"user_" ++ uid ++ "_" ++ rh, uid, fps, 0, now, "ready"⟩) := by
    unfold process_and_store_documents
    have htriv : ¬ (¬ (true = true)) := by simp
    rw [if_neg htriv, if_neg htriv, if_neg htriv, hload]
    dsimp only
    rw [hchunks]
    rfl
  refine ⟨hr, ?_⟩
  rw [hr]
  exact dictGet_dictSet_self sets _ _

/-- Loader of the C6 witness: a page of pure whitespace, which the chunker
discards entirely. -/
def emptyLoad : String → Except String (List PyDocument) :=
  fun _ => .ok [⟨List.replicate 40 ' ', "e.pdf"⟩]

/-- Witness for `empty_ingestion_succeeds` on a whitespace-only page. -/
theorem empty_ingestion_succeeds_witness :
    process_and_store_documents true true true emptyLoad atomBatch [] ["e.pdf"] "u" "r" 0
      = (.success ("user_" ++ "u" ++ "_" ++ "r") 0
           "Documents successfully processed and indexed",
         store_document_set []
           ⟨"user_" ++ "u" ++ "_" ++ "r", "u", ["e.pdf"], 0, 0, "ready"⟩) ∧
    get_document_set
        (process_and_store_documents true true true emptyLoad atomBatch [] ["e.pdf"] "u" "r" 0).2
        ("user_" ++ "u" ++ "_" ++ "r")
      = some ⟨"user_" ++ "u" ++ "_" ++ "r", "u", ["e.pdf"], 0, 0, "ready"⟩ :=
  empty_ingestion_succeeds emptyLoad atomBatch [] ["e.pdf"] "u" "r" 0
    [⟨List.replicate 40 ' ', "e.pdf"⟩] (by decide) (by decide)

/-- C9 (confirmed): registry keys are unique and owners immutable — storing
a record touches no other key and makes the stored record retrievable under
its own id; the delete operation touches no other key; and an ingestion
into a fresh namespace preserves every existing record unchanged (hence its
owner).  The query and list operations take no registry state to a new one
(they are read-only by construction, mirroring the code, which never calls
a write method of the store there). -/
theorem registry_owner_immutable :
    (∀ (sets : Registry) (ds : DocumentSetRecord) (id2 : String), id2 ≠ ds.id →
      get_document_set (store_document_set sets ds) id2 = get_document_set sets id2) ∧
    (∀ (sets : Registry) (ds : DocumentSetRecord),
      get_document_set (store_document_set sets ds) ds.id = some ds) ∧
    (∀ (sets : Registry) (ns uid id2 : String), id2 ≠ ns →
      get_document_set ((delete_document_set sets ns uid).2) id2
        = get_document_set sets id2) ∧
    (∀ (featureOk pcOk embOk : Bool) (load : String → Except String (List PyDocument))
      (storeBatch : List PyDocument → Except String Unit)
      (sets : Registry) (fps : List String) (uid rh : String) (now : Nat)
      (id2 : String) (r : DocumentSetRecord),
      get_document_set sets ("user_" ++ uid ++ "_" ++ rh) = none →
      get_document_set sets id2 = some r →
      get_document_set
        ((process_and_store_documents featureOk pcOk embOk load storeBatch
            sets fps uid rh now).2) id2 = some r) := by
  refine ⟨?_, ?_, ?_, ?_⟩
  · intro sets ds id2 h
    exact dictGet_dictSet_ne sets ds.id id2 ds h
  · intro sets ds
    exact dictGet_dictSet_self sets ds.id ds
  · intro sets ns uid id2 h
    unfold delete_document_set
    cases hget : get_document_set sets ns with
    | none => rfl
    | some ds =>
      dsimp only
      by_cases howner : ds.user_id ≠ uid
      · rw [if_pos howner]
      · rw [if_neg howner]
        exact dictGet_dictDelete_ne sets ns id2 h
  · intro featureOk pcOk embOk load storeBatch sets fps uid rh now id2 r hfresh hget
    have hne : id2 ≠ ("user_" ++ uid ++ "_" ++ rh) := by
      intro heq
      rw [heq, hfresh] at hget
      exact Option.noConfusion hget
    rcases process_cases featureOk pcOk embOk load storeBatch sets fps uid rh now with
      ⟨e, hp⟩ | ⟨n, hp⟩
    · rw [hp]
      exact hget
    · rw [hp]
      show dictGet (dictSet sets ("user_" ++ uid ++ "_" ++ rh) _) id2 = some r
      rw [dictGet_dictSet_ne sets _ id2 _ hne]
      exact hget

/-- Record and registry used by the C9 witness. -/
def c9Record : DocumentSetRecord := ⟨"ns9", "carol", ["c.pdf"], 3, 7, "ready"⟩

/-- Second record, stored under a different key, for the C9 witness. -/
def c9Other : DocumentSetRecord := ⟨"ns8", "dave", ["d.pdf"], 2, 6, "ready"⟩

/-- Witness for `registry_owner_immutable` on a two-record registry. -/
theorem registry_owner_immutable_witness :
    get_document_set (store_document_set [("ns8", c9Other)] c9Record) "ns8"
        = get_document_set [("ns8", c9Other)] "ns8" ∧
    get_document_set (store_document_set [("ns8", c9Other)] c9Record) c9Record.id
        = some c9Record ∧
    get_document_set ((delete_document_set [("ns8", c9Other), ("ns9", c9Record)]
        "ns9" "carol").2) "ns8"
        = get_document_set [("ns8", c9Other), ("ns9", c9Record)] "ns8" ∧
    get_document_set
        ((process_and_store_documents true true true emptyLoad atomBatch
            [("ns8", c9Other)] ["e.pdf"] "u" "r" 0).2) "ns8" = some c9Other :=
  ⟨registry_owner_immutable.1 [("ns8", c9Other)] c9Record "ns8" (by decide),
   registry_owner_immutable.2.1 [("ns8", c9Other)] c9Record,
   registry_owner_immutable.2.2.1 [("ns8", c9Other), ("ns9", c9Record)] "ns9" "carol" "ns8"
     (by decide),
   registry_owner_immutable.2.2.2 true true true emptyLoad atomBatch
     [("ns8", c9Other)] ["e.pdf"] "u" "r" 0 "ns8" c9Other (by decide) (by decide)⟩

/-- C10 (confirmed): when the subscription collaborator does not grant the
`document_upload` feature to the calling user, the ingestion fails
immediately with the tier error, for every loader and batch-write oracle
and leaving the registry untouched — so the gate runs before any document
is loaded, any chunk is created, any vector is written, or any registry
record is stored. -/
theorem subscription_gate_first
    (users : List (String × UserRecord)) (pcOk embOk : Bool)
    (load : String → Except String (List PyDocument))
    (storeBatch : List PyDocument → Except String Unit)
    (sets : Registry) (fps : List String) (uid rh : String) (now : Nat)
    (h : check_feature_access users uid "document_upload" = false) :
    process_and_store_documents_service users pcOk embOk load storeBatch sets fps uid rh now
      = (.failure "Document upload not available for your subscription tier", sets) := by
  unfold process_and_store_documents_service process_and_store_documents
  rw [h]
  simp

/-- Witness for `subscription_gate_first`: a Basic-tier user (no tier's
feature list contains `document_upload`) is refused before any collaborator
runs. -/
theorem subscription_gate_first_witness :
    process_and_store_documents_service [("u1", ⟨"u1", SubscriptionTier.basic⟩)] true true
        atomLoad atomBatch [] ["a.pdf"] "u1" "r" 0
      = (.failure "Document upload not available for your subscription tier", []) :=
  subscription_gate_first [("u1", ⟨"u1", SubscriptionTier.basic⟩)] true true
    atomLoad atomBatch [] ["a.pdf"] "u1" "r" 0 (by decide)

end AILawer
